import Mathlib

/-!
Verification of the PubLog Dataset Indexing and Query Service.

Shallow embedding of `src/database.py`, `src/config.py` and
`src/data_loader.py`.  Rows are ordered column-name/value mappings
(as the Python layer builds `dict(zip(columns, row))`); the store is an
association list from relation name to a loaded table.  DuckDB resolves
relation names case-insensitively (`is_table_indexed` compares with
`UPPER(...)`), which `lookupTable` mirrors.  Caller-facing query methods
that can hit a missing relation are embedded in `Except String`, since
`PubLogDatabase.query` re-raises engine errors; in the model the only
engine failure is a missing relation.
-/

namespace Publog

/-- A typed scalar held in a relation cell or passed as a bound
statement parameter (text, integer or null). -/
inductive SqlVal where
  | str (s : String)
  | int (n : Int)
  | null
deriving DecidableEq

/-- Render a scalar the way DuckDB coerces it to text in `LIKE` and in
mixed-type comparisons; `null` renders as nothing (comparisons and
`LIKE` against NULL are false). -/
def valStr : SqlVal → Option String
  | SqlVal.str s => some s
  | SqlVal.int n => some (toString n)
  | SqlVal.null => none

/-- A row: ordered mapping from column name to scalar, as produced by
`dict(zip(columns, row))` in `PubLogDatabase.query`. -/
abbrev Row := List (String × SqlVal)

/-- Column access within a row. -/
def getCol (r : Row) (c : String) : Option SqlVal :=
  (r.find? (fun p => p.1 == c)).map (fun p => p.2)

/-- A loaded relation: its declared column schema (name, type pairs in
declared order, as `DESCRIBE` reports them) and its rows. -/
structure Table where
  cols : List (String × String)
  rows : List Row
deriving DecidableEq

/-- The store: DuckDB relations by name (`PubLogDatabase` state). -/
abbrev Store := List (String × Table)

/-! The string primitives the services rely on (upper-casing, integer
parsing, substring search, lexicographic order) are defined here
structurally over the character list, so that every embedded operation
evaluates inside the kernel; the library versions are loop-based and do
not reduce definitionally. -/

/-- Python `str.upper()` and SQL `UPPER(...)`. -/
def strUpper (s : String) : String := String.mk (s.data.map Char.toUpper)

/-- Does the first character list start with the second? -/
def startsWithChars : List Char → List Char → Bool
  | _, [] => true
  | [], _ :: _ => false
  | c :: cs, p :: ps => c == p && startsWithChars cs ps

/-- Does the first character list contain the second as a contiguous
run? -/
def containsChars (pat : List Char) : List Char → Bool
  | [] => startsWithChars [] pat
  | c :: rest => startsWithChars (c :: rest) pat || containsChars pat rest

/-- Substring containment, the semantics of `col LIKE ?` when the bound
pattern is built as percent-term-percent by the services.  (Terms are
modelled literally; `LIKE` metacharacters inside the term are out of
scope for the claims.) -/
def containsSub (s pat : String) : Bool :=
  containsChars pat.data s.data

/-- Digit-run parser: `none` on the empty run or any non-digit. -/
def digitsToNat : List Char → Option Nat → Option Nat
  | [], acc => acc
  | c :: cs, acc =>
      if c.isDigit then
        digitsToNat cs (some ((acc.getD 0) * 10 + (c.toNat - 48)))
      else none

/-- Python `int(x)` on a string: an optional sign followed by digits
(surrounding whitespace and underscore separators, which Python also
accepts, are out of scope for the claims); `none` models the
`ValueError` branch. -/
def strToInt (s : String) : Option Int :=
  match s.data with
  | '-' :: rest => (digitsToNat rest none).map (fun n => -(n : Int))
  | '+' :: rest => (digitsToNat rest none).map (fun n => (n : Int))
  | ds => (digitsToNat ds none).map (fun n => (n : Int))

/-- Lexicographic comparison of character lists. -/
def leChars : List Char → List Char → Bool
  | [], _ => true
  | _ :: _, [] => false
  | a :: as, b :: bs => if a == b then leChars as bs else decide (a < b)

/-- Lexicographic string comparison for `ORDER BY` on a text column. -/
def strLe (a b : String) : Bool := leChars a.data b.data

/-- Relation lookup; DuckDB identifiers are case-insensitive and
`is_table_indexed` compares `UPPER(table_name) = UPPER(?)`. -/
def lookupTable (s : Store) (name : String) : Option Table :=
  (s.find? (fun p => strUpper p.1 == strUpper name)).map (fun p => p.2)

/-- `PubLogDatabase.is_table_indexed`. -/
def is_table_indexed (s : Store) (name : String) : Bool :=
  (lookupTable s name).isSome

/-- `DROP TABLE IF EXISTS name`. -/
def dropTable (s : Store) (name : String) : Store :=
  s.filter (fun p => !(strUpper p.1 == strUpper name))

/-- `CREATE TABLE name AS SELECT * FROM read_csv_auto(...)`; the parsed
file content becomes the relation. -/
def createTable (s : Store) (name : String) (t : Table) : Store :=
  s ++ [(name, t)]

/-- Row count of a relation, when it exists. -/
def rowCount (s : Store) (name : String) : Option Nat :=
  (lookupTable s name).map (fun t => t.rows.length)

/-- The engine error `PubLogDatabase.query` re-raises when a statement
names a relation that does not exist. -/
def catalogErr (name : String) : String :=
  "Catalog Error: Table with name " ++ name ++ " does not exist"

/-- `UPPER(col) LIKE ?` with bound pattern percent-`q.upper()`-percent. -/
def likeUpper (r : Row) (c : String) (q : String) : Bool :=
  match (getCol r c).bind valStr with
  | some v => containsSub (strUpper v) (strUpper q)
  | none => false

/-- `col LIKE ?` (column not upper-cased) with the same bound pattern
percent-`q.upper()`-percent. -/
def likeRaw (r : Row) (c : String) (q : String) : Bool :=
  match (getCol r c).bind valStr with
  | some v => containsSub v (strUpper q)
  | none => false

/-- `UPPER(col) = ?` with an upper-cased bound value. -/
def colUpperEq (r : Row) (c : String) (v : String) : Bool :=
  match (getCol r c).bind valStr with
  | some w => strUpper w == v
  | none => false

/-- `col = ?` with a bound scalar; DuckDB coerces across integer and
text operands, modelled by comparing the text renderings.  NULL never
equals anything. -/
def colEqVal (r : Row) (c : String) (p : SqlVal) : Bool :=
  match (getCol r c).bind valStr, valStr p with
  | some a, some b => a == b
  | _, _ => false

/-- `CAST(col AS VARCHAR) = ?`: exact text comparison. -/
def colStrEq (r : Row) (c : String) (v : String) : Bool :=
  match (getCol r c).bind valStr with
  | some a => a == v
  | none => false

/-- Python truthiness of an optional string argument (`if state:`):
`None` and the empty string both count as not supplied. -/
def truthy : Option String → Option String
  | some s => if s == "" then none else some s
  | none => none

/-- Stable insertion sort used to model `ORDER BY`. -/
def insertLe {α : Type} (le : α → α → Bool) (x : α) : List α → List α
  | [] => [x]
  | y :: ys => if le x y then x :: y :: ys else y :: insertLe le x ys

/-- Stable sort used to model `ORDER BY`. -/
def sortBy {α : Type} (le : α → α → Bool) : List α → List α
  | [] => []
  | x :: xs => insertLe le x (sortBy le xs)

/-- Ordering on a text column for `ORDER BY col` (NULLS LAST, the
DuckDB default for ascending order). -/
def leTextCol (c : String) (a b : Row) : Bool :=
  match (getCol a c).bind valStr, (getCol b c).bind valStr with
  | some x, some y => strLe x y
  | some _, none => true
  | none, some _ => false
  | none, none => true

/-- Ordering on an integer-rendered column for `ORDER BY FSC`. -/
def leIntCol (c : String) (a b : Row) : Bool :=
  match getCol a c, getCol b c with
  | some (SqlVal.int x), some (SqlVal.int y) => x ≤ y
  | some _, none => true
  | _, _ => true

/-- `SELECT DISTINCT` on already-computed result tuples: keep the first
occurrence of each distinct tuple. -/
def distinctAux {α : Type} [DecidableEq α] (seen : List α) : List α → List α
  | [] => []
  | a :: l =>
      if a ∈ seen then distinctAux seen l
      else a :: distinctAux (a :: seen) l

/-- `SELECT DISTINCT`. -/
def distinct {α : Type} [DecidableEq α] (l : List α) : List α :=
  distinctAux [] l

/-! ## Domain query services (`src/data_loader.py`) -/

/-- `CAGEService.search`: substring match over company, city or code,
ordered by company, paged with LIMIT/OFFSET. -/
def cage_search (s : Store) (q : String) (limit offset : Nat) :
    Except String (List Row) :=
  match lookupTable s "P_CAGE" with
  | none => Except.error (catalogErr "P_CAGE")
  | some t =>
      Except.ok (((sortBy (leTextCol "COMPANY")
        (t.rows.filter (fun r =>
          likeUpper r "COMPANY" q || likeUpper r "CITY" q ||
            likeRaw r "CAGE_CODE" q))).drop offset).take limit)

/-- `CAGEService.search_by_location`: AND of whichever of the three
filters are truthy; with no truthy filter the method returns the empty
list before building or running any statement. -/
def cage_search_by_location (s : Store) (state city country : Option String)
    (limit : Nat) : Except String (List Row) :=
  if (truthy state).isNone && (truthy city).isNone && (truthy country).isNone then
    Except.ok []
  else
    match lookupTable s "P_CAGE" with
    | none => Except.error (catalogErr "P_CAGE")
    | some t =>
        Except.ok ((sortBy (leTextCol "COMPANY")
          (t.rows.filter (fun r =>
            (match truthy state with
             | some v => colUpperEq r "STATE_PROVINCE" (strUpper v)
             | none => true) &&
            (match truthy city with
             | some v => likeUpper r "CITY" v
             | none => true) &&
            (match truthy country with
             | some v => likeUpper r "COUNTRY" v
             | none => true)))).take limit)

/-- The value `CAST(FSC / 100 AS INTEGER)` computes for an integer FSC
column value: DuckDB `/` is float division and the cast to INTEGER
rounds to the nearest integer (ties round half away from zero; class
codes are nonnegative, where this is the floor of fsc/100 + 1/2).  It
is written here on integers so that it evaluates in the kernel;
`fsgOf_eq_round` below states the identity with the rational form. -/
def fsgOf (fsc : Int) : Int := (2 * fsc + 100) / 200

/-- `FSCService.get_all_fsg`: distinct (FSG, FSG_TITLE) pairs with FSG
computed as `CAST(FSC / 100 AS INTEGER)`, ordered by FSG. -/
def get_all_fsg (s : Store) : Except String (List (Int × SqlVal)) :=
  match lookupTable s "V_H2_FSG" with
  | none => Except.error (catalogErr "V_H2_FSG")
  | some t =>
      match t.rows.mapM (fun r =>
        match getCol r "FSC", getCol r "FSG_TITLE" with
        | some (SqlVal.int n), some title => Except.ok (fsgOf n, title)
        | _, _ => Except.error "Binder Error: column not found") with
      | Except.error e => Except.error e
      | Except.ok pairs =>
          Except.ok (sortBy (fun a b => decide (a.1 ≤ b.1)) (distinct pairs))

/-- `FSCService.search_fsc`: a query that parses as an integer matches
exact code or title substring, any other query title substring only;
ordered by FSC and capped at 100 rows regardless of the caller.
(Python `int(query)` is modelled by `strToInt`.) -/
def search_fsc (s : Store) (q : String) : Except String (List Row) :=
  match lookupTable s "V_H2_FSC" with
  | none => Except.error (catalogErr "V_H2_FSC")
  | some t =>
      match strToInt q with
      | some n =>
          Except.ok ((sortBy (leIntCol "FSC")
            (t.rows.filter (fun r =>
              colEqVal r "FSC" (SqlVal.int n) ||
                likeUpper r "FSC_TITLE" q))).take 100)
      | none =>
          Except.ok ((sortBy (leIntCol "FSC")
            (t.rows.filter (fun r => likeUpper r "FSC_TITLE" q))).take 100)

/-- Fallback leg of `NSNService.get_by_niin`: the FLISV query guarded by
`is_table_indexed`, then the final `return None`. -/
def nsn_flisv_lookup (s : Store) (niin : String) : Option Row :=
  match lookupTable s "FLISV" with
  | some t => t.rows.find? (fun r => colEqVal r "NIIN" (SqlVal.str niin))
  | none => none

/-- `NSNService.get_by_niin`: primary relation P_FLIS_NSN first (when
indexed and yielding a row), then FLISV, then the not-found sentinel.
Both queries are guarded by `is_table_indexed`, so no engine error can
arise on this path. -/
def nsn_get_by_niin (s : Store) (niin : String) : Option Row :=
  match lookupTable s "P_FLIS_NSN" with
  | some t =>
      match t.rows.find? (fun r => colEqVal r "NIIN" (SqlVal.str niin)) with
      | some r => some r
      | none => nsn_flisv_lookup s niin
  | none => nsn_flisv_lookup s niin

/-- The row predicate of the WHERE clause `NSNService.search` builds:
the text condition when the query is nonempty, AND the FSC condition
when that filter is truthy (a filter that parses as an integer compares
`FSC = ?`, any other `CAST(FSC AS VARCHAR) = ?`). -/
def nsnRowPred (q : String) (fsc : Option String) (r : Row) : Bool :=
  (if q == "" then true
   else likeRaw r "NIIN" q || likeUpper r "ITEM_NAME" q) &&
  (match truthy fsc with
   | none => true
   | some f =>
       match strToInt f with
       | some n => colEqVal r "FSC" (SqlVal.int n)
       | none => colStrEq r "FSC" f)

/-- The WHERE clause text `NSNService.search` builds (`1=1` when no
condition applies). -/
def nsnWhereClause (q : String) (fsc : Option String) : String :=
  let conditions :=
    (if q == "" then [] else ["(NIIN LIKE ? OR UPPER(ITEM_NAME) LIKE ?)"]) ++
    (match truthy fsc with
     | none => []
     | some f =>
         match strToInt f with
         | some _ => ["FSC = ?"]
         | none => ["CAST(FSC AS VARCHAR) = ?"])
  if conditions = [] then "1=1" else String.intercalate " AND " conditions

/-- `NSNService.search`: returns the empty list when the primary
relation P_FLIS_NSN is not indexed (FLISV lacks the search fields);
otherwise filters the primary relation by the built WHERE clause and
pages with LIMIT/OFFSET (no ORDER BY). -/
def nsn_search (s : Store) (q : String) (fsc : Option String)
    (limit offset : Nat) : Except String (List Row) :=
  match lookupTable s "P_FLIS_NSN" with
  | none => Except.ok []
  | some t =>
      Except.ok (((t.rows.filter (nsnRowPred q fsc)).drop offset).take limit)

/-- `ItemNameService.search`: substring over title, definition or code,
ordered by title, capped at the caller limit. -/
def inc_search (s : Store) (q : String) (limit : Nat) :
    Except String (List Row) :=
  match lookupTable s "V_H6_NAME_INC" with
  | none => Except.error (catalogErr "V_H6_NAME_INC")
  | some t =>
      Except.ok ((sortBy (leTextCol "FIIG_TITLE")
        (t.rows.filter (fun r =>
          likeUpper r "FIIG_TITLE" q || likeUpper r "DEFINITION" q ||
            likeRaw r "INC" q))).take limit)

/-- The four-key result mapping `UnifiedSearchService.search_all`
initializes before querying. -/
def searchAllInit : List (String × List Row) :=
  [("cage", []), ("fsc", []), ("nsn", []), ("item_names", [])]

/-- Assignment to an existing key of the result mapping. -/
def setKey (m : List (String × List Row)) (k : String) (v : List Row) :
    List (String × List Row) :=
  m.map (fun e => if e.1 == k then (k, v) else e)

/-- `UnifiedSearchService.search_all`: each category searched
independently under the shared per-category limit (the FSC result,
whose service takes no limit, is truncated here); a category whose
search raises keeps its initial empty list (the `except` branches). -/
def search_all (s : Store) (q : String) (limit : Nat) :
    List (String × List Row) :=
  let r0 := searchAllInit
  let r1 := match cage_search s q limit 0 with
    | Except.ok v => setKey r0 "cage" v
    | Except.error _ => r0
  let r2 := match search_fsc s q with
    | Except.ok v => setKey r1 "fsc" (v.take limit)
    | Except.error _ => r1
  let r3 := match nsn_search s q none limit 0 with
    | Except.ok v => setKey r2 "nsn" v
    | Except.error _ => r2
  match inc_search s q limit with
    | Except.ok v => setKey r3 "item_names" v
    | Except.error _ => r3

/-! ## Store introspection (`src/database.py`) -/

/-- Relation description as `PubLogDatabase.get_table_info` returns it
on success. -/
structure TableInfo where
  table_name : String
  row_count : Nat
  columns : List (String × String)
deriving DecidableEq

/-- `PubLogDatabase.get_table_info`: `DESCRIBE` then `COUNT(*)`; any
engine error (in particular a missing relation, on which `DESCRIBE`
raises) is caught and the not-found sentinel (the empty dict, here
`none`) is returned. -/
def get_table_info (s : Store) (name : String) : Option TableInfo :=
  match lookupTable s name with
  | none => none
  | some t =>
      some { table_name := name, row_count := t.rows.length, columns := t.cols }

/-! ## Load and index lifecycle (`src/database.py` and `src/config.py`)

The filesystem is modelled as a mapping from source path to the table
the fault-tolerant CSV ingestion (`read_csv_auto` with
`ignore_errors=true` and sampled schema inference) produces for that
file; parsing itself is abstracted as that parsed content. -/

/-- The filesystem: source path to parsed file content. -/
abbrev Fs := List (String × Table)

/-- `file_path.exists()` plus the content materialization reads. -/
def lookupFs (fs : Fs) (path : String) : Option Table :=
  (fs.find? (fun p => p.1 == path)).map (fun p => p.2)

/-- `PubLogDatabase.index_csv_file`: missing source reports failure;
an already-indexed relation without `force` is a no-op success; `force`
drops the relation first; otherwise the relation is created from the
parsed file (a `CREATE TABLE` hitting an existing relation would raise
and be caught as failure). -/
def index_csv_file (fs : Fs) (s : Store) (name path : String)
    (force : Bool) : Bool × Store :=
  match lookupFs fs path with
  | none => (false, s)
  | some file =>
      if is_table_indexed s name && !force then (true, s)
      else
        let s1 := if force then dropTable s name else s
        if is_table_indexed s1 name then (false, s1)
        else (true, createTable s1 name file)

/-- `config.DATA_FILES`: the static catalog, categories in declaration
order, each mapping logical table names to source paths. -/
def DATA_FILES : List (String × List (String × String)) :=
  [("cage",
    [("P_CAGE", "Data/CAGE/P_CAGE.CSV"),
     ("V_CAGE_ADDRESS", "Data/CAGE/V_CAGE_ADDRESS.CSV"),
     ("V_CAGE_STATUS_AND_TYPE", "Data/CAGE/V_CAGE_STATUS_AND_TYPE.CSV")]),
   ("h_series",
    [("V_H2_FSC", "Data/H-SERIES/V_H2_FSC.CSV"),
     ("V_H2_FSG", "Data/H-SERIES/V_H2_FSG.CSV"),
     ("V_H3_AMMUNITION", "Data/H-SERIES/V_H3_AMMUNITION.CSV"),
     ("V_H5_BUSINESS", "Data/H-SERIES/V_H5_BUSINESS.CSV"),
     ("V_H5_CORPORATE", "Data/H-SERIES/V_H5_CORPORATE.CSV"),
     ("V_H5_DOMESTIC", "Data/H-SERIES/V_H5_DOMESTIC.CSV"),
     ("V_H5_FOREIGN", "Data/H-SERIES/V_H5_FOREIGN.CSV"),
     ("V_H6_NAME_INC", "Data/H-SERIES/V_H6_NAME_INC.CSV"),
     ("V_H6_MODIFIER", "Data/H-SERIES/V_H6_MODIFIER.CSV"),
     ("V_H6_RELATED", "Data/H-SERIES/V_H6_RELATED.CSV"),
     ("V_FSC_IMM", "Data/H-SERIES/V_FSC_IMM.CSV")]),
   ("identification",
    [("P_FLIS_NSN", "Data/IDENTIFICATION/P_FLIS_NSN.CSV"),
     ("V_COLLOQUIAL_NAME", "Data/IDENTIFICATION/V_COLLOQUIAL_NAME.CSV"),
     ("V_FLIS_CANCELLED_NIIN", "Data/IDENTIFICATION/V_FLIS_CANCELLED_NIIN.CSV"),
     ("V_FLIS_IDENTIFICATION", "Data/IDENTIFICATION/V_FLIS_IDENTIFICATION.CSV"),
     ("V_FLIS_STANDARDIZATION", "Data/IDENTIFICATION/V_FLIS_STANDARDIZATION.CSV")]),
   ("management",
    [("V_FLIS_MANAGEMENT", "Data/MANAGEMENT/V_FLIS_MANAGEMENT.CSV"),
     ("V_FLIS_MANAGEMENT_FUTURE", "Data/MANAGEMENT/V_FLIS_MANAGEMENT_FUTURE.CSV"),
     ("V_FLIS_PHRASE", "Data/MANAGEMENT/V_FLIS_PHRASE.CSV"),
     ("V_MGMT_AIR_FORCE", "Data/MANAGEMENT/V_MGMT_AIR_FORCE.CSV"),
     ("V_MGMT_ARMY", "Data/MANAGEMENT/V_MGMT_ARMY.CSV"),
     ("V_MGMT_COAST_GUARD", "Data/MANAGEMENT/V_MGMT_COAST_GUARD.CSV"),
     ("V_MGMT_MARINE_CORPS", "Data/MANAGEMENT/V_MGMT_MARINE_CORPS.CSV"),
     ("V_MGMT_NAVY", "Data/MANAGEMENT/V_MGMT_NAVY.CSV"),
     ("V_SOCOM_MANAGEMENT", "Data/MANAGEMENT/V_SOCOM_MANAGEMENT.CSV")]),
   ("freight_packaging",
    [("V_FREIGHT", "Data/FREIGHT_PACKAGING/V_FREIGHT.CSV"),
     ("V_FLIS_PACKAGING_1", "Data/FREIGHT_PACKAGING/V_FLIS_PACKAGING_1.CSV"),
     ("V_FLIS_PACKAGING_2", "Data/FREIGHT_PACKAGING/V_FLIS_PACKAGING_2.CSV"),
     ("V_FLIS_PACKAGING_3", "Data/FREIGHT_PACKAGING/V_FLIS_PACKAGING_3.CSV")]),
   ("history",
    [("V_ITEM_IDENTIFICATION_HISTORY", "Data/HISTORY/V_ITEM_IDENTIFICATION_HISTORY.CSV"),
     ("V_MANAGEMENT_HISTORY", "Data/HISTORY/V_MANAGEMENT_HISTORY.CSV"),
     ("V_REFERENCE_NUMBER_HISTORY", "Data/HISTORY/V_REFERENCE_NUMBER_HISTORY.CSV")]),
   ("mrd",
    [("MRD0107", "Data/MRD/MRD0107.CSV"),
     ("MRD0300", "Data/MRD/MRD0300.CSV"),
     ("MRD0500", "Data/MRD/MRD0500.CSV"),
     ("MRD06P1", "Data/MRD/MRD06P1.CSV"),
     ("MRD06P2", "Data/MRD/MRD06P2.CSV")]),
   ("large_files",
    [("FLISV", "Data/FLISV.CSV"),
     ("V_CHARACTERISTICS", "Data/V_CHARACTERISTICS-2.CSV"),
     ("V_FLIS_PART", "Data/V_FLIS_PART-2.CSV"),
     ("V_MOE_RULE", "Data/V_MOE_RULE-2.CSV")])]

/-- `PubLogDatabase.get_all_data_files`: the catalog flattened into one
name-to-path mapping, categories in order (names are unique across the
whole catalog, so the dict updates are plain concatenation). -/
def get_all_data_files : List (String × String) :=
  (DATA_FILES.map (fun c => c.2)).flatten

/-- `config.PRIORITY_TABLES`. -/
def PRIORITY_TABLES : List String :=
  ["P_CAGE", "V_H2_FSC", "V_H2_FSG", "V_H6_NAME_INC", "V_H6_MODIFIER",
   "V_FSC_IMM", "V_FLIS_CANCELLED_NIIN", "V_COLLOQUIAL_NAME",
   "V_FLIS_STANDARDIZATION", "V_H3_AMMUNITION", "V_H5_BUSINESS",
   "V_H5_CORPORATE", "V_H5_DOMESTIC", "V_H5_FOREIGN", "V_H6_RELATED",
   "V_FREIGHT", "V_FLIS_PACKAGING_1", "V_FLIS_PACKAGING_2",
   "V_FLIS_PACKAGING_3", "V_FLIS_PHRASE", "V_MGMT_AIR_FORCE",
   "V_MGMT_ARMY", "V_MGMT_COAST_GUARD", "V_MGMT_MARINE_CORPS",
   "V_MGMT_NAVY", "V_SOCOM_MANAGEMENT", "V_FLIS_MANAGEMENT_FUTURE"]

/-- `config.LARGE_TABLES`. -/
def LARGE_TABLES : List String :=
  ["FLISV", "V_CHARACTERISTICS", "V_FLIS_PART", "V_MOE_RULE",
   "V_FLIS_MANAGEMENT", "P_FLIS_NSN", "V_FLIS_IDENTIFICATION"]

/-- `all_files[table_name]` lookup in the flattened catalog. -/
def lookupPath (name : String) : Option String :=
  (get_all_data_files.find? (fun p => p.1 == name)).map (fun p => p.2)

/-- One tier loop of `index_priority_tables` / `index_large_tables`:
for each tier name present in the catalog, attempt the load and record
its result, threading the store. -/
def tierSweep (fs : Fs) (force : Bool) :
    Store → List String → List (String × Bool) × Store
  | s, [] => ([], s)
  | s, n :: rest =>
      match lookupPath n with
      | none => tierSweep fs force s rest
      | some p =>
          let pr := index_csv_file fs s n p force
          let res := tierSweep fs force pr.2 rest
          ((n, pr.1) :: res.1, res.2)

/-- Python `dict.update`: keys already present keep their position and
take the new value; new keys are appended in order. -/
def dictUpdate (a b : List (String × Bool)) : List (String × Bool) :=
  b.foldl (fun acc kv =>
    if acc.any (fun e => e.1 == kv.1) then
      acc.map (fun e => if e.1 == kv.1 then (e.1, kv.2) else e)
    else acc ++ [kv]) a

/-- The remainder loop of `index_all_tables`: every catalog entry whose
name is not already recorded is attempted and appended. -/
def remainderSweep (fs : Fs) (force : Bool) :
    List (String × Bool) → Store → List (String × String) →
    List (String × Bool) × Store
  | acc, s, [] => (acc, s)
  | acc, s, (n, p) :: rest =>
      if acc.any (fun e => e.1 == n) then remainderSweep fs force acc s rest
      else
        let pr := index_csv_file fs s n p force
        remainderSweep fs force (acc ++ [(n, pr.1)]) pr.2 rest

/-- `PubLogDatabase.index_all_tables`: priority tier, then large tier
(their reports merged with `dict.update`), then every remaining catalog
entry not yet recorded. -/
def index_all_tables (fs : Fs) (s : Store) (force : Bool) :
    List (String × Bool) × Store :=
  let pr := tierSweep fs force s PRIORITY_TABLES
  let lg := tierSweep fs force pr.2 LARGE_TABLES
  remainderSweep fs force (dictUpdate pr.1 lg.1) lg.2 get_all_data_files

/-! ## Statement construction (texts and bound parameters)

For each service operation, the exact statement text handed to
`PubLogDatabase.query` together with its bound parameter list,
mirroring the string construction in `src/data_loader.py` (including
the newlines and indentation of the Python triple-quoted strings).
The `*_run` style embeddings above give the semantics of running these
statements; Python `int(x)` parsing is modelled by `strToInt`. -/

/-- A statement: its text and its positionally bound parameters. -/
abbrev Sql := String × List SqlVal

/-- Statement of `CAGEService.get_by_code`. -/
def cage_get_by_code_stmt (cage_code : String) : Sql :=
  ("SELECT * FROM P_CAGE WHERE CAGE_CODE = ? LIMIT 1",
   [SqlVal.str (strUpper cage_code)])

/-- Statement of `CAGEService.search`. -/
def cage_search_stmt (q : String) (limit offset : Int) : Sql :=
  let search_term := "%" ++ strUpper q ++ "%"
  ("\n            SELECT * FROM P_CAGE\n            WHERE UPPER(COMPANY) LIKE ?\n               OR UPPER(CITY) LIKE ?\n               OR CAGE_CODE LIKE ?\n            ORDER BY COMPANY\n            LIMIT ? OFFSET ?\n        ",
   [SqlVal.str search_term, SqlVal.str search_term, SqlVal.str search_term,
    SqlVal.int limit, SqlVal.int offset])

/-- Statement of `CAGEService.search_by_location`; `none` when no
filter is truthy and the method returns before building a statement. -/
def cage_search_by_location_stmt (state city country : Option String)
    (limit : Int) : Option Sql :=
  let sc :=
    (match truthy state with
     | some v => [("UPPER(STATE_PROVINCE) = ?", SqlVal.str (strUpper v))]
     | none => []) ++
    (match truthy city with
     | some v => [("UPPER(CITY) LIKE ?", SqlVal.str ("%" ++ strUpper v ++ "%"))]
     | none => []) ++
    (match truthy country with
     | some v => [("UPPER(COUNTRY) LIKE ?", SqlVal.str ("%" ++ strUpper v ++ "%"))]
     | none => [])
  if sc = [] then none
  else some
    ("\n            SELECT * FROM P_CAGE\n            WHERE " ++
       String.intercalate " AND " (sc.map (fun p => p.1)) ++
       "\n            ORDER BY COMPANY\n            LIMIT ?\n        ",
     sc.map (fun p => p.2) ++ [SqlVal.int limit])

/-- Statement of `FSCService.get_fsc_by_code` (numeric codes compare
`FSC = ?`, anything else falls back to a text cast). -/
def fsc_get_by_code_stmt (fsc : String) : Sql :=
  match strToInt fsc with
  | some n => ("SELECT * FROM V_H2_FSC WHERE FSC = ? LIMIT 1", [SqlVal.int n])
  | none =>
      ("SELECT * FROM V_H2_FSC WHERE CAST(FSC AS VARCHAR) = ? LIMIT 1",
       [SqlVal.str fsc])

/-- Statement of `FSCService.get_fsc_by_fsg`; `none` when the group
does not parse as an integer and the method returns the empty list. -/
def fsc_get_by_fsg_stmt (fsg : String) : Option Sql :=
  match strToInt fsg with
  | some n =>
      some ("\n                SELECT * FROM V_H2_FSC\n                WHERE FSC >= ? AND FSC < ?\n                ORDER BY FSC\n            ",
        [SqlVal.int (n * 100), SqlVal.int ((n + 1) * 100)])
  | none => none

/-- Statement of `FSCService.search_fsc`. -/
def search_fsc_stmt (q : String) : Sql :=
  let search_term := "%" ++ strUpper q ++ "%"
  match strToInt q with
  | some n =>
      ("\n                SELECT * FROM V_H2_FSC\n                WHERE FSC = ? OR UPPER(FSC_TITLE) LIKE ?\n                ORDER BY FSC\n                LIMIT 100\n            ",
       [SqlVal.int n, SqlVal.str search_term])
  | none =>
      ("\n                SELECT * FROM V_H2_FSC\n                WHERE UPPER(FSC_TITLE) LIKE ?\n                ORDER BY FSC\n                LIMIT 100\n            ",
       [SqlVal.str search_term])

/-- First statement of `NSNService.get_by_niin`. -/
def nsn_get_by_niin_primary_stmt (niin : String) : Sql :=
  ("SELECT * FROM P_FLIS_NSN WHERE NIIN = ? LIMIT 1", [SqlVal.str niin])

/-- Fallback statement of `NSNService.get_by_niin`. -/
def nsn_get_by_niin_fallback_stmt (niin : String) : Sql :=
  ("SELECT * FROM FLISV WHERE NIIN = ? LIMIT 1", [SqlVal.str niin])

/-- Statement of `NSNService.search` (built only when P_FLIS_NSN is
indexed; the text is independent of the store). -/
def nsn_search_stmt (q : String) (fsc : Option String)
    (limit offset : Int) : Sql :=
  let condParams :=
    (if q == "" then []
     else
       let search_term := "%" ++ strUpper q ++ "%"
       [SqlVal.str search_term, SqlVal.str search_term]) ++
    (match truthy fsc with
     | none => []
     | some f =>
         match strToInt f with
         | some n => [SqlVal.int n]
         | none => [SqlVal.str f])
  ("\n            SELECT * FROM P_FLIS_NSN\n            WHERE " ++
     nsnWhereClause q fsc ++ "\n            LIMIT ? OFFSET ?\n        ",
   condParams ++ [SqlVal.int limit, SqlVal.int offset])

/-- Statement of `NSNService.get_by_fsc` (built only when P_FLIS_NSN is
indexed). -/
def nsn_get_by_fsc_stmt (fsc : String) (limit offset : Int) : Sql :=
  match strToInt fsc with
  | some n =>
      ("\n                    SELECT * FROM P_FLIS_NSN\n                    WHERE FSC = ?\n                    LIMIT ? OFFSET ?\n                ",
       [SqlVal.int n, SqlVal.int limit, SqlVal.int offset])
  | none =>
      ("\n                    SELECT * FROM P_FLIS_NSN\n                    WHERE CAST(FSC AS VARCHAR) = ?\n                    LIMIT ? OFFSET ?\n                ",
       [SqlVal.str fsc, SqlVal.int limit, SqlVal.int offset])

/-- Statement of `NSNService.get_management_data`. -/
def nsn_management_stmt (niin : String) : Sql :=
  ("\n            SELECT * FROM V_FLIS_MANAGEMENT\n            WHERE NIIN = ?\n        ",
   [SqlVal.str niin])

/-- Statement of `NSNService.get_characteristics`. -/
def nsn_characteristics_stmt (niin : String) : Sql :=
  ("\n            SELECT * FROM V_CHARACTERISTICS\n            WHERE NIIN = ?\n        ",
   [SqlVal.str niin])

/-- Statement of `ItemNameService.get_by_inc`. -/
def inc_get_by_code_stmt (inc : String) : Sql :=
  ("SELECT * FROM V_H6_NAME_INC WHERE INC = ? LIMIT 1", [SqlVal.str inc])

/-- Statement of `ItemNameService.search`. -/
def inc_search_stmt (q : String) (limit : Int) : Sql :=
  let search_term := "%" ++ strUpper q ++ "%"
  ("\n            SELECT * FROM V_H6_NAME_INC\n            WHERE UPPER(FIIG_TITLE) LIKE ?\n               OR UPPER(DEFINITION) LIKE ?\n               OR INC LIKE ?\n            ORDER BY FIIG_TITLE\n            LIMIT ?\n        ",
   [SqlVal.str search_term, SqlVal.str search_term, SqlVal.str search_term,
    SqlVal.int limit])

/-- Statement of `ItemNameService.get_all`: the caller-supplied limit
is interpolated by an f-string into the statement text, not bound. -/
def inc_get_all_stmt (limit : Int) : Sql :=
  ("\n            SELECT * FROM V_H6_NAME_INC\n            ORDER BY FIIG_TITLE\n            LIMIT " ++
     toString limit ++ "\n        ", [])

/-! ## Concrete sample data used by witnesses and counterexamples -/

/-- A contractor row whose company name matches the term TEST. -/
def cageRow1 : Row :=
  [("CAGE_CODE", SqlVal.str "1ABC5"), ("COMPANY", SqlVal.str "TEST CO"),
   ("CITY", SqlVal.str "DAYTON"), ("STATE_PROVINCE", SqlVal.str "OH"),
   ("COUNTRY", SqlVal.str "USA")]

/-- A one-row P_CAGE relation. -/
def cageTable : Table :=
  { cols := [("CAGE_CODE", "VARCHAR"), ("COMPANY", "VARCHAR"),
             ("CITY", "VARCHAR"), ("STATE_PROVINCE", "VARCHAR"),
             ("COUNTRY", "VARCHAR")],
    rows := [cageRow1] }

/-- A stock-number row whose item name matches the term TEST. -/
def nsnRow1 : Row :=
  [("NIIN", SqlVal.str "012345678"), ("FSC", SqlVal.int 5820),
   ("ITEM_NAME", SqlVal.str "TEST WIDGET")]

/-- A one-row P_FLIS_NSN relation. -/
def nsnTable : Table :=
  { cols := [("NIIN", "VARCHAR"), ("FSC", "BIGINT"), ("ITEM_NAME", "VARCHAR")],
    rows := [nsnRow1] }

/-- An item-name row whose title matches the term TEST. -/
def incRow1 : Row :=
  [("INC", SqlVal.str "00001"), ("FIIG_TITLE", SqlVal.str "TEST VALVE"),
   ("DEFINITION", SqlVal.str "A SMALL PART")]

/-- A one-row V_H6_NAME_INC relation. -/
def incTable : Table :=
  { cols := [("INC", "VARCHAR"), ("FIIG_TITLE", "VARCHAR"),
             ("DEFINITION", "VARCHAR")],
    rows := [incRow1] }

/-- A characteristics-style row of the fallback FLISV relation. -/
def flisvRow1 : Row :=
  [("NIIN", SqlVal.str "998877665"), ("MRC", SqlVal.str "AAGR")]

/-- A one-row FLISV relation. -/
def flisvTable : Table :=
  { cols := [("NIIN", "VARCHAR"), ("MRC", "VARCHAR")], rows := [flisvRow1] }

/-- Store with the CAGE, stock-number and item-name relations loaded
and populated, but no classification relation (V_H2_FSC unindexed). -/
def demoStore : Store :=
  [("P_CAGE", cageTable), ("P_FLIS_NSN", nsnTable),
   ("V_H6_NAME_INC", incTable)]

/-- Store holding only the fallback FLISV relation; the primary
P_FLIS_NSN relation is absent. -/
def flisvOnlyStore : Store := [("FLISV", flisvTable)]

/-- The group title shared by the sample classification rows. -/
def fsgTitle58 : SqlVal := SqlVal.str "COMMUNICATION EQUIPMENT"

/-- V_H2_FSG content holding classes 5820 and 5821 of group 58. -/
def fsgPairStore : Store :=
  [("V_H2_FSG",
    { cols := [("FSC", "BIGINT"), ("FSG_TITLE", "VARCHAR")],
      rows := [[("FSC", SqlVal.int 5820), ("FSG_TITLE", fsgTitle58)],
               [("FSC", SqlVal.int 5821), ("FSG_TITLE", fsgTitle58)]] })]

/-- V_H2_FSG content holding the single class 5890, whose group (the
first two digits) is 58. -/
def fsgBugStore : Store :=
  [("V_H2_FSG",
    { cols := [("FSC", "BIGINT"), ("FSG_TITLE", "VARCHAR")],
      rows := [[("FSC", SqlVal.int 5890), ("FSG_TITLE", fsgTitle58)]] })]

/-- A filesystem holding one source file. -/
def demoFs : Fs := [("Data/CAGE/P_CAGE.CSV", cageTable)]

/-- A classification row whose title matches the term TEST. -/
def fscRowA : Row :=
  [("FSC", SqlVal.int 5820), ("FSC_TITLE", SqlVal.str "TEST EQUIPMENT A")]

/-- A second classification row whose title matches the term TEST. -/
def fscRowB : Row :=
  [("FSC", SqlVal.int 5821), ("FSC_TITLE", SqlVal.str "TEST EQUIPMENT B")]

/-- A two-row V_H2_FSC relation with two matches for the term TEST. -/
def fscTable2 : Table :=
  { cols := [("FSC", "BIGINT"), ("FSC_TITLE", "VARCHAR")],
    rows := [fscRowA, fscRowB] }

/-- Store whose classification relation holds two rows matching the
term while the CAGE relation is absent (so the CAGE search raises);
the stock-number and item-name relations are populated. -/
def truncStore : Store :=
  [("V_H2_FSC", fscTable2), ("P_FLIS_NSN", nsnTable),
   ("V_H6_NAME_INC", incTable)]

/-- The shape the optional FSC filter contributes to a WHERE clause:
`none` when the filter is not truthy, otherwise whether it parses as an
integer (which selects `FSC = ?` versus the text-cast comparison). -/
def fscFilterShape (fsc : Option String) : Option Bool :=
  (truthy fsc).map (fun f => (strToInt f).isSome)

/-- Pure key-level form of recording results by name without
overwriting: keys already present are kept in place, new keys are
appended (the key behaviour shared by `dictUpdate` and the remainder
loop of `index_all_tables`). -/
def recordKeys (ka : List String) : List String → List String :=
  List.foldl (fun acc k => if acc.any (fun x => x == k) then acc else acc ++ [k]) ka

/-- The catalog names belonging to neither tier, in catalog order. -/
def untieredNames : List String :=
  (get_all_data_files.map (fun p => p.1)).filter
    (fun n => !(PRIORITY_TABLES.contains n || LARGE_TABLES.contains n))

/-! ## Theorems -/

/-- C1 counterexample: on a store whose CAGE relation is loaded and
populated, the location search with none of the three filters supplied
returns an empty-result success (the empty list), not an
InvalidArgument failure: the claim as stated is false on the code. -/
theorem search_by_location_no_filter_empty_success :
    cage_search_by_location demoStore none none none 7 = Except.ok [] := rfl

/-- C1 (amended): `CAGEService.search_by_location` with none of the
three filters supplied returns an empty-result success for every store
and every limit, without querying; it raises neither InvalidArgument
nor QueryError. -/
theorem search_by_location_no_filter (s : Store) (limit : Nat) :
    cage_search_by_location s none none none limit = Except.ok [] := rfl

/-- The integer form of the group derivation equals rounding half up
of fsc/100 over the rationals (the DuckDB float division and rounding
cast on nonnegative codes). -/
theorem fsgOf_eq_round (n : Int) : fsgOf n = ⌊(n : ℚ) / 100 + 1 / 2⌋ := by
  have h : (n : ℚ) / 100 + 1 / 2 = ((2 * n + 100 : Int) : ℚ) / ((200 : Nat) : ℚ) := by
    push_cast
    ring
  simp only [fsgOf, h, Rat.floor_intCast_div_natCast]
  norm_num

/-- C2: group derivation of `FSCService.get_all_fsg`.  For a class
table holding codes 5820 and 5821 the result is exactly one group, 58;
but the derivation is not floor division by 100: for class code 5890
the code reports group 59, because `CAST(FSC / 100 AS INTEGER)` in
DuckDB is float division followed by a rounding cast, while
5890 div 100 = 58 (what the claim, and the code's own first-two-digits
comment, require). -/
theorem get_all_fsg_rounding_divergence :
    get_all_fsg fsgPairStore = Except.ok [(58, fsgTitle58)] ∧
    get_all_fsg fsgBugStore = Except.ok [(59, fsgTitle58)] ∧
    fsgOf 5890 = 59 ∧ (5890 : Int) / 100 = 58 :=
  ⟨rfl, rfl, by decide, by decide⟩

/-- C4: two-tier fallback of `NSNService.get_by_niin`: whenever the
primary relation P_FLIS_NSN is absent and the key matches a row of the
loaded fallback relation FLISV, the lookup returns that row (the first
match, per LIMIT 1) rather than the not-found sentinel. -/
theorem nsn_get_by_niin_fallback (s : Store) (niin : String) (t : Table)
    (r : Row) (h1 : lookupTable s "P_FLIS_NSN" = none)
    (h2 : lookupTable s "FLISV" = some t)
    (h3 : t.rows.find? (fun row => colEqVal row "NIIN" (SqlVal.str niin)) =
      some r) :
    nsn_get_by_niin s niin = some r := by
  simp [nsn_get_by_niin, nsn_flisv_lookup, h1, h2, h3]

/-- C4 witness: on a store holding only FLISV, the lookup of a key
present there returns its row. -/
theorem nsn_get_by_niin_fallback_witness :
    nsn_get_by_niin flisvOnlyStore "998877665" = some flisvRow1 :=
  nsn_get_by_niin_fallback flisvOnlyStore "998877665" flisvTable flisvRow1
    rfl rfl rfl

/-- C5: `PubLogDatabase.get_table_info` returns the not-found sentinel
(the empty mapping, embedded as `none`) when the named relation does
not exist, and otherwise the relation's row count and its columns as
(name, type) pairs in declared order. -/
theorem get_table_info_spec (s : Store) (name : String) :
    (lookupTable s name = none → get_table_info s name = none) ∧
    (∀ t, lookupTable s name = some t →
      get_table_info s name =
        some { table_name := name, row_count := t.rows.length,
               columns := t.cols }) := by
  constructor
  · intro h; simp [get_table_info, h]
  · intro t h; simp [get_table_info, h]

/-- C5 witness: a missing relation describes to the sentinel, an
existing one to its row count and declared columns. -/
theorem get_table_info_spec_witness :
    get_table_info demoStore "V_H2_FSC" = none ∧
    get_table_info demoStore "P_CAGE" =
      some { table_name := "P_CAGE", row_count := 1,
             columns := [("CAGE_CODE", "VARCHAR"), ("COMPANY", "VARCHAR"),
                         ("CITY", "VARCHAR"), ("STATE_PROVINCE", "VARCHAR"),
                         ("COUNTRY", "VARCHAR")] } :=
  ⟨(get_table_info_spec demoStore "V_H2_FSC").1 rfl,
   (get_table_info_spec demoStore "P_CAGE").2 cageTable rfl⟩

/-- A freshly created relation is found by a lookup under its own
name. -/
theorem lookupTable_createTable_self (s : Store) (name : String) (t : Table) :
    (lookupTable (createTable s name t) name).isSome = true := by
  unfold lookupTable createTable
  rw [List.find?_append]
  cases h : s.find? (fun p => strUpper p.1 == strUpper name) <;>
    simp [List.find?]

/-- C6: idempotent load.  For every table whose source file exists,
`index_csv_file` with `force=false` succeeds, an immediately repeated
call succeeds again, leaves the store unchanged, and in particular
leaves the relation's row count unchanged. -/
theorem index_csv_file_idempotent (fs : Fs) (s : Store) (name path : String)
    (h : (lookupFs fs path).isSome = true) :
    (index_csv_file fs s name path false).1 = true ∧
    (index_csv_file fs (index_csv_file fs s name path false).2
       name path false).1 = true ∧
    (index_csv_file fs (index_csv_file fs s name path false).2
       name path false).2 = (index_csv_file fs s name path false).2 ∧
    rowCount (index_csv_file fs (index_csv_file fs s name path false).2
       name path false).2 name =
      rowCount (index_csv_file fs s name path false).2 name := by
  cases hf : lookupFs fs path with
  | none => rw [hf] at h; simp at h
  | some file =>
      by_cases hidx : is_table_indexed s name
      · simp [index_csv_file, hf, hidx]
      · simp only [Bool.not_eq_true] at hidx
        have hidx2 : (lookupTable s name).isSome = false := hidx
        simp [index_csv_file, hf, is_table_indexed, hidx2,
          lookupTable_createTable_self]

/-- C6 witness: loading P_CAGE twice from an existing source into the
empty store succeeds both times and keeps the row count at 1. -/
theorem index_csv_file_idempotent_witness :
    (index_csv_file demoFs [] "P_CAGE" "Data/CAGE/P_CAGE.CSV" false).1 = true ∧
    (index_csv_file demoFs
       (index_csv_file demoFs [] "P_CAGE" "Data/CAGE/P_CAGE.CSV" false).2
       "P_CAGE" "Data/CAGE/P_CAGE.CSV" false).1 = true ∧
    (index_csv_file demoFs
       (index_csv_file demoFs [] "P_CAGE" "Data/CAGE/P_CAGE.CSV" false).2
       "P_CAGE" "Data/CAGE/P_CAGE.CSV" false).2 =
      (index_csv_file demoFs [] "P_CAGE" "Data/CAGE/P_CAGE.CSV" false).2 ∧
    rowCount (index_csv_file demoFs
       (index_csv_file demoFs [] "P_CAGE" "Data/CAGE/P_CAGE.CSV" false).2
       "P_CAGE" "Data/CAGE/P_CAGE.CSV" false).2 "P_CAGE" =
      rowCount
        (index_csv_file demoFs [] "P_CAGE" "Data/CAGE/P_CAGE.CSV" false).2
        "P_CAGE" :=
  index_csv_file_idempotent demoFs [] "P_CAGE" "Data/CAGE/P_CAGE.CSV" rfl

/-- C7 counterexample: the claim as stated is false.  On this store
the CAGE search raises (its relation is absent), that category
degrades to the empty sequence and no exception escapes — but the
classification category's entry is NOT exactly what its service
returned: the service returned two rows and the aggregator truncated
them to the per-category limit. -/
theorem search_all_truncation_counterexample :
    cage_search truncStore "test" 1 0 =
      Except.error (catalogErr "P_CAGE") ∧
    search_fsc truncStore "test" = Except.ok [fscRowA, fscRowB] ∧
    search_all truncStore "test" 1 =
      [("cage", []), ("fsc", [fscRowA]), ("nsn", [nsnRow1]),
       ("item_names", [incRow1])] ∧
    [fscRowA] ≠ [fscRowA, fscRowB] :=
  ⟨rfl, rfl, rfl, by decide⟩

/-- C7 (amended): fault isolation of `UnifiedSearchService.search_all`
for any one failing service.  For every store, query and limit,
whichever one of the four services raises while the other three return
normally, the aggregate result maps the failing category to the empty
sequence, the exception does not propagate (`search_all` is total),
and each other category holds exactly what its service returned —
except the classification category, whose service result the
aggregator itself truncates to the per-category limit. -/
theorem search_all_fault_isolation_any (s : Store) (q : String)
    (limit : Nat) :
    (∀ e f n i, cage_search s q limit 0 = Except.error e →
      search_fsc s q = Except.ok f →
      nsn_search s q none limit 0 = Except.ok n →
      inc_search s q limit = Except.ok i →
      search_all s q limit =
        [("cage", []), ("fsc", f.take limit), ("nsn", n),
         ("item_names", i)]) ∧
    (∀ e c n i, search_fsc s q = Except.error e →
      cage_search s q limit 0 = Except.ok c →
      nsn_search s q none limit 0 = Except.ok n →
      inc_search s q limit = Except.ok i →
      search_all s q limit =
        [("cage", c), ("fsc", []), ("nsn", n), ("item_names", i)]) ∧
    (∀ e c f i, nsn_search s q none limit 0 = Except.error e →
      cage_search s q limit 0 = Except.ok c →
      search_fsc s q = Except.ok f →
      inc_search s q limit = Except.ok i →
      search_all s q limit =
        [("cage", c), ("fsc", f.take limit), ("nsn", []),
         ("item_names", i)]) ∧
    (∀ e c f n, inc_search s q limit = Except.error e →
      cage_search s q limit 0 = Except.ok c →
      search_fsc s q = Except.ok f →
      nsn_search s q none limit 0 = Except.ok n →
      search_all s q limit =
        [("cage", c), ("fsc", f.take limit), ("nsn", n),
         ("item_names", [])]) := by
  refine ⟨?_, ?_, ?_, ?_⟩ <;>
    (intro e a b c h1 h2 h3 h4
     simp only [search_all, h1, h2, h3, h4]
     rfl)

/-- C7 witness: instances of the amended statement.  With the CAGE
relation absent the CAGE search raises and its category is empty, the
two classification matches are truncated to the limit of one, and the
other two categories hold their services' results; with the
classification relation absent instead, its category is empty and the
other three hold their services' results. -/
theorem search_all_fault_isolation_any_witness :
    search_all truncStore "test" 1 =
      [("cage", []), ("fsc", [fscRowA]), ("nsn", [nsnRow1]),
       ("item_names", [incRow1])] ∧
    search_all demoStore "test" 10 =
      [("cage", [cageRow1]), ("fsc", []), ("nsn", [nsnRow1]),
       ("item_names", [incRow1])] :=
  ⟨(search_all_fault_isolation_any truncStore "test" 1).1
     (catalogErr "P_CAGE") [fscRowA, fscRowB] [nsnRow1] [incRow1]
     rfl rfl rfl rfl,
   (search_all_fault_isolation_any demoStore "test" 10).2.1
     (catalogErr "V_H2_FSC") [cageRow1] [nsnRow1] [incRow1]
     rfl rfl rfl rfl⟩

/-- Assigning to a key of the result mapping never changes its key
list. -/
theorem setKey_keys (m : List (String × List Row)) (k : String)
    (v : List Row) :
    (setKey m k v).map (fun p => p.1) = m.map (fun p => p.1) := by
  induction m with
  | nil => rfl
  | cons a m ih =>
      show ((if a.1 == k then (k, v) else a) :: setKey m k v).map
          (fun p => p.1) = a.1 :: m.map (fun p => p.1)
      by_cases h : a.1 == k
      · have ha : a.1 = k := by simpa using h
        rw [List.map_cons, ih, if_pos h, ha]
      · rw [List.map_cons, ih, if_neg h]

/-- C9: for every store, query term and limit, the mapping returned by
`UnifiedSearchService.search_all` has exactly the four category keys
cage, fsc, nsn and item_names, in that order — each key is present
even when every underlying service fails. -/
theorem search_all_four_keys (s : Store) (q : String) (limit : Nat) :
    (search_all s q limit).map (fun p => p.1) =
      ["cage", "fsc", "nsn", "item_names"] := by
  unfold search_all
  cases cage_search s q limit 0 <;> cases search_fsc s q <;>
    cases nsn_search s q none limit 0 <;> cases inc_search s q limit <;>
    simp [setKey_keys, searchAllInit]

/-- C10: with the primary stock-number relation indexed, `NSNService.search`
with the empty query and no FSC filter does not fail and does not take
the unindexed-relation empty-return path: it builds the unfiltered
WHERE clause `1=1` and returns the relation's rows from `offset`, up to
`limit` of them — a nonempty result whenever the relation has more than
`offset` rows and the limit is positive. -/
theorem nsn_search_empty_query_unfiltered (s : Store) (t : Table)
    (limit offset : Nat) (h : lookupTable s "P_FLIS_NSN" = some t) :
    nsn_search s "" none limit offset =
      Except.ok ((t.rows.drop offset).take limit) ∧
    nsnWhereClause "" none = "1=1" ∧
    (offset < t.rows.length → 0 < limit →
      nsn_search s "" none limit offset ≠ Except.ok []) := by
  have hfilter : t.rows.filter (nsnRowPred "" none) = t.rows := by
    simp [nsnRowPred, truthy]
  refine ⟨by simp [nsn_search, h, hfilter], rfl, ?_⟩
  intro ho hl heq
  simp [nsn_search, h, hfilter] at heq
  rcases heq with h0 | h1 <;> omega

/-- C10 witness: on the populated sample store the empty-query search
returns the relation's first rows. -/
theorem nsn_search_empty_query_unfiltered_witness :
    nsn_search demoStore "" none 10 0 = Except.ok [nsnRow1] ∧
    nsnWhereClause "" none = "1=1" ∧
    nsn_search demoStore "" none 10 0 ≠ Except.ok [] := by
  have h := nsn_search_empty_query_unfiltered demoStore nsnTable 10 0 rfl
  exact ⟨h.1, h.2.1, h.2.2 (by decide) (by decide)⟩

/-- The WHERE clause `NSNService.search` builds depends only on
whether the query is empty and on the shape of the FSC filter, never
on the filter value itself. -/
theorem nsnWhereClause_shape (q q2 : String) (f f2 : Option String)
    (hq : (q == "") = (q2 == ""))
    (hf : fscFilterShape f = fscFilterShape f2) :
    nsnWhereClause q f = nsnWhereClause q2 f2 := by
  unfold fscFilterShape at hf
  unfold nsnWhereClause
  rw [hq]
  generalize truthy f = tf at hf ⊢
  generalize truthy f2 = tf2 at hf ⊢
  cases tf with
  | none =>
      cases tf2 with
      | none => rfl
      | some v2 => simp at hf
  | some v =>
      cases tf2 with
      | none => simp at hf
      | some v2 =>
          simp only [Option.map_some', Option.some.injEq] at hf
          rcases hsv : strToInt v with _ | n <;>
            rcases hsv2 : strToInt v2 with _ | n2 <;>
            simp [hsv, hsv2] at hf ⊢

/-- C3 counterexample: the claim fails on the code.  Caller-supplied
values can change the statement text itself: `ItemNameService.get_all`
interpolates the limit into the text; changing the state filter of the
location search from supplied to absent changes the WHERE skeleton;
changing an FSC code from numeric to non-numeric selects a different
comparison text. -/
theorem stmt_text_depends_on_values :
    (inc_get_all_stmt 5).1 ≠ (inc_get_all_stmt 6).1 ∧
    (cage_search_by_location_stmt (some "TX") (some "PARIS") none 5).map
        (fun p => p.1) ≠
      (cage_search_by_location_stmt none (some "PARIS") none 5).map
        (fun p => p.1) ∧
    (fsc_get_by_code_stmt "5820").1 ≠ (fsc_get_by_code_stmt "58X0").1 :=
  ⟨by decide, by decide, by decide⟩

/-- C3 (amended): every caller-supplied value is passed only as a
bound parameter and the statement text handed to the store never
depends on the value itself — it depends only on which optional
filters are truthy and on whether a supplied code parses as an integer
(each selecting among fixed condition skeletons) — with the single
exception of `ItemNameService.get_all`, which interpolates the caller
limit into the statement text (see the counterexample). -/
theorem stmt_text_value_independent :
    (∀ c c2, (cage_get_by_code_stmt c).1 = (cage_get_by_code_stmt c2).1) ∧
    (∀ q l o q2 l2 o2,
      (cage_search_stmt q l o).1 = (cage_search_stmt q2 l2 o2).1) ∧
    (∀ st ci co l st2 ci2 co2 l2,
      (truthy st).isSome = (truthy st2).isSome →
      (truthy ci).isSome = (truthy ci2).isSome →
      (truthy co).isSome = (truthy co2).isSome →
      (cage_search_by_location_stmt st ci co l).map (fun p => p.1) =
        (cage_search_by_location_stmt st2 ci2 co2 l2).map (fun p => p.1)) ∧
    (∀ c c2, (strToInt c).isSome = (strToInt c2).isSome →
      (fsc_get_by_code_stmt c).1 = (fsc_get_by_code_stmt c2).1) ∧
    (∀ g g2, (strToInt g).isSome = (strToInt g2).isSome →
      (fsc_get_by_fsg_stmt g).map (fun p => p.1) =
        (fsc_get_by_fsg_stmt g2).map (fun p => p.1)) ∧
    (∀ q q2, (strToInt q).isSome = (strToInt q2).isSome →
      (search_fsc_stmt q).1 = (search_fsc_stmt q2).1) ∧
    (∀ n n2, (nsn_get_by_niin_primary_stmt n).1 =
        (nsn_get_by_niin_primary_stmt n2).1 ∧
      (nsn_get_by_niin_fallback_stmt n).1 =
        (nsn_get_by_niin_fallback_stmt n2).1) ∧
    (∀ q f l o q2 f2 l2 o2, (q == "") = (q2 == "") →
      fscFilterShape f = fscFilterShape f2 →
      (nsn_search_stmt q f l o).1 = (nsn_search_stmt q2 f2 l2 o2).1) ∧
    (∀ f l o f2 l2 o2, (strToInt f).isSome = (strToInt f2).isSome →
      (nsn_get_by_fsc_stmt f l o).1 = (nsn_get_by_fsc_stmt f2 l2 o2).1) ∧
    (∀ n n2, (nsn_management_stmt n).1 = (nsn_management_stmt n2).1 ∧
      (nsn_characteristics_stmt n).1 = (nsn_characteristics_stmt n2).1) ∧
    (∀ c c2, (inc_get_by_code_stmt c).1 = (inc_get_by_code_stmt c2).1) ∧
    (∀ q l q2 l2, (inc_search_stmt q l).1 = (inc_search_stmt q2 l2).1) := by
  refine ⟨fun c c2 => rfl, fun q l o q2 l2 o2 => rfl, ?_, ?_, ?_, ?_,
    fun n n2 => ⟨rfl, rfl⟩, ?_, ?_, fun n n2 => ⟨rfl, rfl⟩,
    fun c c2 => rfl, fun q l q2 l2 => rfl⟩
  · intro st ci co l st2 ci2 co2 l2 h1 h2 h3
    cases hs : truthy st <;> cases hs2 : truthy st2 <;>
      cases hc : truthy ci <;> cases hc2 : truthy ci2 <;>
      cases ho : truthy co <;> cases ho2 : truthy co2 <;>
      simp_all [cage_search_by_location_stmt]
  · intro c c2 h
    unfold fsc_get_by_code_stmt
    generalize strToInt c = v at h ⊢
    generalize strToInt c2 = v2 at h ⊢
    cases v <;> cases v2 <;> simp_all
  · intro g g2 h
    unfold fsc_get_by_fsg_stmt
    generalize strToInt g = v at h ⊢
    generalize strToInt g2 = v2 at h ⊢
    cases v <;> cases v2 <;> simp_all
  · intro q q2 h
    unfold search_fsc_stmt
    generalize strToInt q = v at h ⊢
    generalize strToInt q2 = v2 at h ⊢
    cases v <;> cases v2 <;> simp_all
  · intro q f l o q2 f2 l2 o2 hq hf
    have hw := nsnWhereClause_shape q q2 f f2 hq hf
    simp [nsn_search_stmt, hw]
  · intro f l o f2 l2 o2 h
    unfold nsn_get_by_fsc_stmt
    generalize strToInt f = v at h ⊢
    generalize strToInt f2 = v2 at h ⊢
    cases v <;> cases v2 <;> simp_all

/-- C3 witness: instances of the amended statement at concrete
values. -/
theorem stmt_text_value_independent_witness :
    (cage_search_stmt "ACME" 10 0).1 = (cage_search_stmt "BOLT" 99 7).1 ∧
    (cage_search_by_location_stmt (some "TX") none none 5).map
        (fun p => p.1) =
      (cage_search_by_location_stmt (some "CA") none none 9).map
        (fun p => p.1) ∧
    (search_fsc_stmt "5820").1 = (search_fsc_stmt "1234").1 :=
  ⟨stmt_text_value_independent.2.1 "ACME" 10 0 "BOLT" 99 7,
   stmt_text_value_independent.2.2.1 (some "TX") none none 5 (some "CA")
     none none 9 rfl rfl rfl,
   stmt_text_value_independent.2.2.2.2.2.1 "5820" "1234" rfl⟩

/-- Key trace of one tier loop: exactly the tier names present in the
catalog, in tier order, independent of filesystem, store and force. -/
theorem tierSweep_keys (fs : Fs) (force : Bool) (s : Store)
    (names : List String) :
    ((tierSweep fs force s names).1).map (fun p => p.1) =
      names.filter (fun n => (lookupPath n).isSome) := by
  induction names generalizing s with
  | nil => rfl
  | cons n rest ih =>
      cases h : lookupPath n with
      | none => simp [tierSweep, h, ih]
      | some pa => simp [tierSweep, h, ih]

/-- Replacing recorded values never changes the key list. -/
theorem map_fst_update (l : List (String × Bool)) (k : String) (b : Bool) :
    (l.map (fun e => if e.1 == k then (e.1, b) else e)).map (fun p => p.1) =
      l.map (fun p => p.1) := by
  induction l with
  | nil => rfl
  | cons a l ih =>
      show ((if a.1 == k then (a.1, b) else a) ::
          l.map (fun e => if e.1 == k then (e.1, b) else e)).map
            (fun p => p.1) = a.1 :: l.map (fun p => p.1)
      by_cases h : a.1 == k
      · rw [List.map_cons, ih, if_pos h]
      · rw [List.map_cons, ih, if_neg h]

/-- `any` over the entries equals `any` over the key list. -/
theorem any_fst (l : List (String × Bool)) (k : String) :
    l.any (fun e => e.1 == k) =
      (l.map (fun p => p.1)).any (fun x => x == k) := by
  induction l with
  | nil => rfl
  | cons a l ih => simp [ih]

/-- Key trace of Python `dict.update` in terms of the two key lists. -/
theorem dictUpdate_keys (b a : List (String × Bool)) :
    (dictUpdate a b).map (fun p => p.1) =
      recordKeys (a.map (fun p => p.1)) (b.map (fun p => p.1)) := by
  induction b generalizing a with
  | nil => rfl
  | cons kv b ih =>
      have hstep : dictUpdate a (kv :: b) =
          dictUpdate
            (if a.any (fun e => e.1 == kv.1) then
               a.map (fun e => if e.1 == kv.1 then (e.1, kv.2) else e)
             else a ++ [kv]) b := rfl
      have hrk : recordKeys (a.map (fun p => p.1))
            ((kv :: b).map (fun p => p.1)) =
          recordKeys
            (if (a.map (fun p => p.1)).any (fun x => x == kv.1)
             then a.map (fun p => p.1)
             else a.map (fun p => p.1) ++ [kv.1]) (b.map (fun p => p.1)) := rfl
      rw [hstep, ih, hrk]
      congr 1
      by_cases h : a.any (fun e => e.1 == kv.1)
      · have h2 : (a.map (fun p => p.1)).any (fun x => x == kv.1) = true := by
          rw [← any_fst]; exact h
        rw [if_pos h, if_pos h2, map_fst_update]
      · have h2 : ¬((a.map (fun p => p.1)).any (fun x => x == kv.1) = true) := by
          rw [← any_fst]; exact h
        rw [if_neg h, if_neg h2, List.map_append]
        rfl

/-- Key trace of the remainder loop of `index_all_tables`. -/
theorem remainderSweep_keys (fs : Fs) (force : Bool)
    (files : List (String × String)) (acc : List (String × Bool))
    (s : Store) :
    ((remainderSweep fs force acc s files).1).map (fun p => p.1) =
      recordKeys (acc.map (fun p => p.1)) (files.map (fun p => p.1)) := by
  induction files generalizing acc s with
  | nil => rfl
  | cons f files ih =>
      obtain ⟨n, pa⟩ := f
      have hrw : remainderSweep fs force acc s ((n, pa) :: files) =
          if acc.any (fun e => e.1 == n) then
            remainderSweep fs force acc s files
          else
            remainderSweep fs force
              (acc ++ [(n, (index_csv_file fs s n pa force).1)])
              (index_csv_file fs s n pa force).2 files := rfl
      have hrk : recordKeys (acc.map (fun p => p.1))
            (((n, pa) :: files).map (fun p => p.1)) =
          recordKeys
            (if (acc.map (fun p => p.1)).any (fun x => x == n)
             then acc.map (fun p => p.1)
             else acc.map (fun p => p.1) ++ [n])
            (files.map (fun p => p.1)) := rfl
      rw [hrw, hrk]
      by_cases h : acc.any (fun e => e.1 == n)
      · have h2 : (acc.map (fun p => p.1)).any (fun x => x == n) = true := by
          rw [← any_fst]; exact h
        rw [if_pos h, if_pos h2, ih]
      · have h2 : ¬((acc.map (fun p => p.1)).any (fun x => x == n) = true) := by
          rw [← any_fst]; exact h
        rw [if_neg h, if_neg h2, ih]
        congr 1
        simp

set_option maxRecDepth 40000 in
/-- C8: `index_all_tables` attempts each catalog logical name exactly
once per sweep — the recorded names are exactly the priority tier, then
the large tier, then the untiered catalog entries, in that order and
without duplicates (so a later tier never overwrites an
already-recorded name), for every filesystem, store and force flag. -/
theorem index_all_tables_order (fs : Fs) (s : Store) (force : Bool) :
    ((index_all_tables fs s force).1).map (fun p => p.1) =
      PRIORITY_TABLES ++ LARGE_TABLES ++ untieredNames ∧
    (((index_all_tables fs s force).1).map (fun p => p.1)).Nodup := by
  have h : ((index_all_tables fs s force).1).map (fun p => p.1) =
      recordKeys
        (recordKeys
          (PRIORITY_TABLES.filter (fun n => (lookupPath n).isSome))
          (LARGE_TABLES.filter (fun n => (lookupPath n).isSome)))
        (get_all_data_files.map (fun p => p.1)) := by
    simp only [index_all_tables]
    rw [remainderSweep_keys, dictUpdate_keys, tierSweep_keys, tierSweep_keys]
  rw [h]
  exact ⟨by decide, by decide⟩

end Publog
